import Mathlib

/-!
Shallow embedding of the chunked file-transfer engine of phpc0de/ctpango.

Sources embedded here:
* `internal/file/uploader/multiworker.go` — `MultiUploader.upload` (commit gate);
* `internal/panupdate/panupdate.go` (a concatenation that also holds the
  `downloader` package) — `SelectBlockSizeAndInitRangeGen`, `checkLoadBalancers`,
  the range-materialisation and error-check phases of `Downloader.Execute`;
* `src/unnamed/part_000` (`pandownload` package) — `DownloadTaskUnit.download`
  final error handling, `handleError`, `checkFileValid`;
* `internal/functions/panupload/utils.go` (second half, `pandownload` package) —
  `CheckFileValid`, which is a stub that always returns nil.

The range-list generator (`library/requester/transfer`) is code of this
repository that is not under `src/`; it is modelled from the spec where noted.
Go `int64` sizes are modelled as `Nat` (all values in scope are non-negative);
Go integer division on non-negative operands is `Nat` division.
-/

namespace Ctpango

/- ===================== MultiUploader (multiworker.go) ===================== -/

/-- One upload part worker: `worker` struct of multiworker.go
(id, partOffset, splitUnit, uploadDone); the split unit itself carries no
information used by the commit gate, so only the flag is kept. -/
structure UploadWorker where
  id : Nat
  partOffset : Nat
  uploadDone : Bool
deriving DecidableEq

/-- Errors that can flow out of `MultiUploader.upload`. -/
inductive UploadErr where
  | terminalErr
  | contextCanceled
  | commitFailed
deriving DecidableEq

/-- `allSuccess` accumulation of multiworker.go lines 140-143:
`allSuccess := true; for _, wer := range muer.workers { allSuccess = allSuccess && wer.uploadDone }`. -/
def allPartsDone (ws : List UploadWorker) : Bool :=
  ws.foldl (fun acc w => acc && w.uploadDone) true

/-- Outcome of the post-drain phase of `MultiUploader.upload`:
whether `CommitFile` was invoked, and the function's return value. -/
structure UploadFinishResult where
  commitCalled : Bool
  ret : Option UploadErr
deriving DecidableEq

/-- The code of `MultiUploader.upload` that runs once the upload deque has
drained (multiworker.go lines 129-154): the `select` on `muer.canceled`
returning `uperr` or `context.Canceled`; otherwise the `allSuccess` fold over
`muer.workers` and, only when it holds, the `CommitFile` call (whose error, if
any, is returned); when some part is not done only a warning is logged and the
function returns the (nil) named error. -/
def uploadFinish (canceled : Bool) (uperr : Option UploadErr)
    (ws : List UploadWorker) (commitResult : Option UploadErr) : UploadFinishResult :=
  if canceled then
    ⟨false, match uperr with
            | some e => some e
            | none => some UploadErr.contextCanceled⟩
  else if allPartsDone ws then
    ⟨true, commitResult⟩
  else
    ⟨false, none⟩

/- ===================== Range generation (downloader) ===================== -/

/-- `transfer.RangeGenMode_Default` (the transfer package is an integer-mode
enum; the default mode is the zero value). -/
def RangeGenMode_Default : Nat := 0

/-- `transfer.RangeGenMode_BlockSize`. -/
def RangeGenMode_BlockSize : Nat := 1

/-- The fields of `downloader.Config` consumed by the embedded functions:
range-generation mode, configured block size, configured cache size. -/
structure DownloaderConfig where
  mode : Nat
  blockSize : Nat
  cacheSize : Nat
deriving DecidableEq

/-- `transfer.Range`: half-open byte interval `[Begin, End)`. -/
structure Range where
  Begin : Nat
  End : Nat
deriving DecidableEq

/-- Modelled from the spec: the state of `transfer.RangeListGen` in BlockSize
mode (`library/requester/transfer` is code of this repository not under
`src/`). It holds the total size, the begin offset of the next range to hand
out, and the fixed block size. -/
structure RangeListGen where
  totalSize : Nat
  nextBegin : Nat
  blockSize : Nat
deriving DecidableEq

/-- `RangeListGen.LoadBlockSize`: the generator's stored block size. -/
def RangeListGen.LoadBlockSize (g : RangeListGen) : Nat :=
  g.blockSize

/-- `transfer.NewRangeListGenBlockSize(totalSize, begin, blockSize)`. -/
def NewRangeListGenBlockSize (totalSize beginPos blockSize : Nat) : RangeListGen :=
  ⟨totalSize, beginPos, blockSize⟩

/-- Modelled from the spec: `transfer.NewRangeListGenDefault` divides
`totalSize` evenly across `parallel` workers, so its block size is the even
share (the default-mode generator is not under `src/`; none of the claims
depend on its exact rounding). -/
def NewRangeListGenDefault (totalSize beginPos _done parallel : Nat) : RangeListGen :=
  ⟨totalSize, beginPos, totalSize / parallel⟩

/-- Modelled from the spec: `RangeListGen.GenRange` in BlockSize mode yields
the next fixed-size chunk, "the final range is clipped to `totalSize`", and
yields nothing once the span `[0, totalSize)` is exhausted. -/
def GenRange (g : RangeListGen) : RangeListGen × Option Range :=
  if g.totalSize ≤ g.nextBegin then (g, none)
  else
    let e := min (g.nextBegin + g.blockSize) g.totalSize
    (⟨g.totalSize, e, g.blockSize⟩, some ⟨g.nextBegin, e⟩)

/-- Result of `Downloader.SelectBlockSizeAndInitRangeGen`: the chosen block
size (Go `int64`, `-1` in single-thread mode), the generator stored into the
status by `status.SetRangeListGen`, and whether `ErrUnknownRangeGenMode` was
returned. -/
structure SelectBlockSizeResult where
  blockSize : Int
  gen : Option RangeListGen
  unknownModeErr : Bool
deriving DecidableEq

/-- `Downloader.SelectBlockSizeAndInitRangeGen` (downloader part of
panupdate.go, lines 662-692): single-thread returns `-1` without touching the
generator; an existing generator keeps its own block size; otherwise Default
mode builds the even-division generator, BlockSize mode takes
`b2 := totalSize/parallel + 1` and picks `config.BlockSize` only when
`b2 > config.BlockSize`, else `b2`; any other mode is
`ErrUnknownRangeGenMode`. -/
def SelectBlockSizeAndInitRangeGen (single : Bool) (cfg : DownloaderConfig)
    (totalSize : Nat) (existingGen : Option RangeListGen) (parallel : Nat) :
    SelectBlockSizeResult :=
  if single then ⟨-1, existingGen, false⟩
  else
    match existingGen with
    | some g => ⟨(g.LoadBlockSize : Int), some g, false⟩
    | none =>
      if cfg.mode = RangeGenMode_Default then
        let g := NewRangeListGenDefault totalSize 0 0 parallel
        ⟨(g.LoadBlockSize : Int), some g, false⟩
      else if cfg.mode = RangeGenMode_BlockSize then
        let b2 : Nat := totalSize / parallel + 1
        let bs : Nat := if b2 > cfg.blockSize then cfg.blockSize else b2
        ⟨(bs : Int), some (NewRangeListGenBlockSize totalSize 0 bs), false⟩
      else ⟨0, existingGen, true⟩

/-- The range-materialisation loop of `Downloader.Execute` (lines 865-877):
`bii.Ranges` has capacity `parallel` and the loop pulls `GenRange` until the
capacity is reached or the generator yields nil. -/
def execRanges : RangeListGen → Nat → List Range
  | _, 0 => []
  | g, n + 1 =>
    match GenRange g with
    | (g2, some r) => r :: execRanges g2 n
    | (_, none) => []

/-- The fresh (non-resumed, multi-threaded) download plan of
`Downloader.Execute`: block size chosen by `SelectBlockSizeAndInitRangeGen`
in BlockSize mode, then `parallel` ranges pulled from the generator. -/
def blockSizePlan (totalSize cfgBlockSize parallel : Nat) : List Range :=
  let cfg : DownloaderConfig := ⟨RangeGenMode_BlockSize, cfgBlockSize, 0⟩
  match (SelectBlockSizeAndInitRangeGen false cfg totalSize none parallel).gen with
  | some g => execRanges g parallel
  | none => []

/- ===================== Load balancer probing ===================== -/

/-- `downloader.LoadBalancerResponse`: one candidate URL. -/
structure LoadBalancerResponse where
  URL : String
deriving DecidableEq

/-- The observable outcome of probing one mirror URL with `durlCheckFunc`
inside `checkLoadBalancers`: whether the probe returned a transport error, the
response status code, the resolved content length, whether `subResp.Request`
is nil, and `req.URL.String()` after the optional `TryHTTP` scheme rewrite. -/
structure MirrorProbe where
  transportErr : Bool
  statusCode : Nat
  contentLength : Nat
  requestNil : Bool
  requestURL : String
deriving DecidableEq

/-- The per-mirror filter of `checkLoadBalancers` (panupdate.go downloader
part, lines 752-786): reject on transport error; reject when
`StatusCode / 100` is 4 or 5 (statuses in other classes, 2xx included, fall
through); reject when the resolved content length differs from
`der.fileInfo.FileSize`. -/
def mirrorAccepted (fileSize : Nat) (m : MirrorProbe) : Bool :=
  if m.transportErr then false
  else if m.statusCode / 100 = 4 ∨ m.statusCode / 100 = 5 then false
  else if fileSize ≠ m.contentLength then false
  else true

/-- `Downloader.checkLoadBalancers` list construction: before the probes are
launched the code appends a first `LoadBalancerResponse` whose URL is the
string literal "der.durl" (lines 738-741); each surviving probe then reaches
`handleLoadBalancer`, which appends `req.URL.String()` unless the request is
nil. The concurrent probes may append in any order; this embedding keeps the
program order of the mirror list, which is irrelevant to the claims (only the
head position and membership are used). -/
def checkLoadBalancers (fileSize : Nat) (mirrors : List MirrorProbe) :
    List LoadBalancerResponse :=
  ⟨"der.durl"⟩ ::
    (mirrors.filter (fun m => mirrorAccepted fileSize m && !m.requestNil)).map
      (fun m => ⟨m.requestURL⟩)

/-- Modelled from the spec: `LoadBalancerResponseList.SequentialGet`
(`downloader` load-balance file, not under `src/`) hands out candidates
round-robin; the k-th call returns element `k mod length`. -/
def SequentialGet (l : List LoadBalancerResponse) (k : Nat) :
    Option LoadBalancerResponse :=
  if l.isEmpty then none else l.get? (k % l.length)

/- ===================== Downloader.Execute / download error paths ===================== -/

/-- Download-side error values distinguished by the embedded code paths. -/
inductive DlErr where
  | noWorkers
  | unknownRangeGenMode
  | otherDlErr
deriving DecidableEq

/-- Outcome of the error-check phase of `Downloader.Execute`: whether the
success event was triggered, whether `removeInstanceState` was invoked, and
the returned error. -/
structure ExecuteFinish where
  successTriggered : Bool
  instanceStateRemoved : Bool
  ret : Option DlErr
deriving DecidableEq

/-- The error-check phase of `Downloader.Execute` (lines 934-948): on a nil
monitor error trigger success and remove the instance state; on
`ErrNoWokers` with `fileInfo.FileSize == 0` likewise trigger success and
remove the instance state, but still return the error; otherwise return the
error untouched. `removeInstanceState` itself is not under `src/` and is
modelled from the spec as deleting the persisted resume file. -/
def executeFinish (monitorErr : Option DlErr) (fileSize : Nat) : ExecuteFinish :=
  match monitorErr with
  | none => ⟨true, true, none⟩
  | some e =>
    if e = DlErr.noWorkers ∧ fileSize = 0 then ⟨true, true, some e⟩
    else ⟨false, false, some e⟩

/-- Outcome of the tail of `DownloadTaskUnit.download`: whether the (empty)
destination file was removed, and the error the method returns. -/
structure DownloadFinish where
  removedEmptyFile : Bool
  ret : Option DlErr
deriving DecidableEq

/-- The error handling at the end of `DownloadTaskUnit.download`
(part_000 lines 191-222): a nil error from `der.Execute()` falls through to
success; `downloader.ErrNoWokers` with `fileInfo.FileSize == 0` is the
zero-size success (return nil); any other error stats the destination file,
removes it when its size is 0, and returns the error. `statSize` is the
result of `file.Stat()` (`none` when the stat itself errors, in which case
nothing is removed). -/
def downloadFinish (execRet : Option DlErr) (fileSize : Nat)
    (statSize : Option Nat) : DownloadFinish :=
  match execRet with
  | none => ⟨false, none⟩
  | some e =>
    if e = DlErr.noWorkers ∧ fileSize = 0 then ⟨false, none⟩
    else ⟨decide (statSize = some 0), some e⟩

/-- Composition of the monitor error through `Downloader.Execute` and
`DownloadTaskUnit.download`. -/
def downloadOutcome (monitorErr : Option DlErr) (fileSize : Nat)
    (statSize : Option Nat) : DownloadFinish :=
  downloadFinish (executeFinish monitorErr fileSize).ret fileSize statSize

/- ===================== DownloadTaskUnit.handleError ===================== -/

/-- `apierror.ApiCodeFileNotFoundCode` of the external ctapi package; only its
identity (distinctness from other codes) matters to the embedded code. -/
def ApiCodeFileNotFoundCode : Nat := 2

/-- The error values `DownloadTaskUnit.handleError` distinguishes by dynamic
type: a remote `*apierror.ApiError` carrying a code, a local `*os.PathError`,
or anything else. -/
inductive GoErr where
  | apiError (code : Nat)
  | pathError
  | otherGoErr
deriving DecidableEq

/-- The fields of `taskframework.TaskUnitRunResult` mutated by the embedded
code. -/
structure TaskUnitRunResult where
  Succeed : Bool
  NeedRetry : Bool
  ResultMessage : String
deriving DecidableEq

/-- `DownloadTaskUnit.handleError` (part_000 lines 239-256): an ApiError with
code `ApiCodeFileNotFoundCode` clears `NeedRetry`; any other ApiError code
sets it; an `*os.PathError` clears it; every other error sets it. -/
def handleError (err : GoErr) (r : TaskUnitRunResult) : TaskUnitRunResult :=
  match err with
  | GoErr.apiError code =>
    if code = ApiCodeFileNotFoundCode then { r with NeedRetry := false }
    else { r with NeedRetry := true }
  | GoErr.pathError => { r with NeedRetry := false }
  | GoErr.otherGoErr => { r with NeedRetry := true }

/- ===================== File validity checking ===================== -/

/-- The fields of `cloudpan.AppFileEntity` the validity check receives. -/
structure AppFileEntity where
  FileSize : Nat
deriving DecidableEq

/-- The download-validation sentinel errors of the `pandownload` package. -/
inductive ValidErr where
  | notSupportChecksum
  | fileBanned
  | checksumFailed
  | otherValidErr
deriving DecidableEq

/-- `pandownload.CheckFileValid` (second half of
internal/functions/panupload/utils.go, lines 65-71): the body only carries
comments about checking MD5, size and digest and returns nil
unconditionally. -/
def CheckFileValid (_filePath : String) (_fileInfo : AppFileEntity) :
    Option ValidErr :=
  none

/-- The mutable state touched by `DownloadTaskUnit.checkFileValid`: the run
result plus the unit's `IsOverwrite` flag. -/
structure CheckValidState where
  NeedRetry : Bool
  ResultMessage : String
  hasErr : Bool
  IsOverwrite : Bool
deriving DecidableEq

/-- The error dispatch of `DownloadTaskUnit.checkFileValid` (part_000 lines
259-300), parameterised over the result of the `CheckFileValid` call: with
`NoCheck` it returns false untouched; a nil validation error returns true; an
unsupported-checksum error returns true after rewording the message; a
banned-file error clears `NeedRetry`; a checksum failure sets `NeedRetry` and
forces `IsOverwrite`; any other validation error clears `NeedRetry`. -/
def checkFileValidCore (noCheck : Bool) (validErr : Option ValidErr)
    (s : CheckValidState) : Bool × CheckValidState :=
  if noCheck then (false, s)
  else
    match validErr with
    | none => (true, s)
    | some err =>
      let s1 := { s with ResultMessage := "检测文件有效性失败", hasErr := true }
      match err with
      | ValidErr.notSupportChecksum => (true, { s1 with ResultMessage := "检验文件有效性" })
      | ValidErr.fileBanned => (false, { s1 with NeedRetry := false })
      | ValidErr.checksumFailed => (false, { s1 with NeedRetry := true, IsOverwrite := true })
      | ValidErr.otherValidErr => (false, { s1 with NeedRetry := false })

/-- `DownloadTaskUnit.checkFileValid` as the source composes it: the dispatch
applied to the actual `CheckFileValid` result. -/
def checkFileValid (noCheck : Bool) (savePath : String)
    (fileInfo : AppFileEntity) (s : CheckValidState) : Bool × CheckValidState :=
  checkFileValidCore noCheck (CheckFileValid savePath fileInfo) s

/- ===================== Helper lemmas ===================== -/

/-- Folding `&&` of the done flags from any accumulator. -/
lemma foldl_and_uploadDone (ws : List UploadWorker) (b : Bool) :
    ws.foldl (fun acc w => acc && w.uploadDone) b
      = (b && ws.all (fun w => w.uploadDone)) := by
  induction ws generalizing b with
  | nil => simp
  | cons w t ih => simp [List.foldl, ih, Bool.and_assoc]

/-- `allPartsDone` agrees with `List.all` over the done flags. -/
lemma allPartsDone_eq_all (ws : List UploadWorker) :
    allPartsDone ws = ws.all (fun w => w.uploadDone) := by
  simp [allPartsDone, foldl_and_uploadDone]

/- ===================== Claims ===================== -/

/-- C1: for every run of `MultiUploader.upload`, once the upload deque has
drained, `CommitFile` is invoked only when every worker's `uploadDone` flag is
true; if some part's flag is still false the commit is never called and the
job returns without committing. `uploadFinish` is the post-drain phase, the
only place the source mentions `CommitFile`. -/
theorem multiUploader_commit_only_when_all_done
    (canceled : Bool) (uperr : Option UploadErr)
    (ws : List UploadWorker) (commitResult : Option UploadErr) :
    ((uploadFinish canceled uperr ws commitResult).commitCalled = true →
      ∀ w ∈ ws, w.uploadDone = true) ∧
    ((∃ w ∈ ws, w.uploadDone = false) →
      (uploadFinish canceled uperr ws commitResult).commitCalled = false) := by
  constructor
  · intro hcall w hw
    unfold uploadFinish at hcall
    by_cases hc : canceled
    · simp [hc] at hcall
    · by_cases hall : allPartsDone ws = true
      · rw [allPartsDone_eq_all] at hall
        exact List.all_eq_true.mp hall w hw
      · simp [hc, hall] at hcall
  · rintro ⟨w, hw, hdone⟩
    unfold uploadFinish
    by_cases hc : canceled
    · simp [hc]
    · have hall : allPartsDone ws ≠ true := by
        rw [allPartsDone_eq_all]
        intro hcontra
        have := List.all_eq_true.mp hcontra w hw
        rw [hdone] at this
        exact Bool.false_ne_true this
      simp [hc, hall]

/-- Witness for C1: with one undone part the commit gate stays closed. -/
theorem multiUploader_commit_only_when_all_done_witness :
    (uploadFinish false none [⟨0, 0, false⟩] none).commitCalled = false :=
  (multiUploader_commit_only_when_all_done false none [⟨0, 0, false⟩] none).2
    ⟨⟨0, 0, false⟩, by simp, rfl⟩

/-- C2: in BlockSize mode with no pre-existing range generator (and the
multi-threaded path of `Execute`, where `single` is hardcoded to false),
`SelectBlockSizeAndInitRangeGen` returns a block size equal to the minimum of
the configured block size and `totalSize/parallelism + 1`. -/
theorem selectBlockSize_blockSizeMode_min (cfg : DownloaderConfig)
    (totalSize parallel : Nat) (hmode : cfg.mode = RangeGenMode_BlockSize)
    (hts : 0 < totalSize) (hp : 1 ≤ parallel) :
    (SelectBlockSizeAndInitRangeGen false cfg totalSize none parallel).blockSize
      = ((min cfg.blockSize (totalSize / parallel + 1) : Nat) : Int) := by
  simp [SelectBlockSizeAndInitRangeGen, hmode, RangeGenMode_Default,
    RangeGenMode_BlockSize]
  split_ifs with h
  · omega
  · omega

/-- Witness for C2: the parameters of the spec's 10 MiB example. -/
theorem selectBlockSize_blockSizeMode_min_witness :
    (SelectBlockSizeAndInitRangeGen false ⟨RangeGenMode_BlockSize, 4194304, 0⟩
        10485760 none 3).blockSize
      = ((min 4194304 (10485760 / 3 + 1) : Nat) : Int) :=
  selectBlockSize_blockSizeMode_min ⟨RangeGenMode_BlockSize, 4194304, 0⟩
    10485760 3 rfl (by decide) (by decide)

/-- C3 counterexample: for a 10 MiB file in BlockSize mode with configured
block size 4 MiB and parallelism 3, the generated plan is NOT the claimed
`[0,4MiB) [4MiB,8MiB) [8MiB,10MiB)`: the code first shrinks the block size to
`10485760/3 + 1 = 3495254 < 4194304`. -/
theorem blockSizePlan_tenMiB_not_as_claimed :
    blockSizePlan 10485760 4194304 3
      ≠ [⟨0, 4194304⟩, ⟨4194304, 8388608⟩, ⟨8388608, 10485760⟩] := by
  decide

/-- C3 amended: for the same inputs the chosen block size is
`min(4194304, 10485760/3 + 1) = 3495254` and the plan is
`[0,3495254) [3495254,6990508) [6990508,10485760)`, the final range clipped to
the total size. -/
theorem blockSizePlan_tenMiB_actual :
    blockSizePlan 10485760 4194304 3
      = [⟨0, 3495254⟩, ⟨3495254, 6990508⟩, ⟨6990508, 10485760⟩] := by
  decide

/-- C4: `handleError` clears `NeedRetry` exactly for a remote ApiError with
the file-not-found code and for a local `*os.PathError`; every other error
value sets `NeedRetry`. -/
theorem handleError_needRetry_classification (r : TaskUnitRunResult) (e : GoErr) :
    (handleError e r).NeedRetry = false
      ↔ (e = GoErr.apiError ApiCodeFileNotFoundCode ∨ e = GoErr.pathError) := by
  cases e with
  | apiError code =>
    by_cases h : code = ApiCodeFileNotFoundCode
    · subst h
      simp [handleError]
    · simp [handleError, h]
  | pathError => simp [handleError]
  | otherGoErr => simp [handleError]

/-- Witness for C4: the file-not-found case at a concrete result record. -/
theorem handleError_needRetry_classification_witness :
    (handleError (GoErr.apiError ApiCodeFileNotFoundCode)
        ⟨false, true, ""⟩).NeedRetry = false :=
  (handleError_needRetry_classification ⟨false, true, ""⟩
      (GoErr.apiError ApiCodeFileNotFoundCode)).mpr (Or.inl rfl)

/-- C5: when the monitor yields `ErrNoWokers` and the file size is 0, the
transfer is a success: `Execute` triggers the success event and removes the
InstanceState file, and `DownloadTaskUnit.download` returns nil; for a
non-empty file the zero-worker plan is an error returned to the caller. -/
theorem zero_byte_noWorkers_success (statSize : Option Nat) :
    (executeFinish (some DlErr.noWorkers) 0).instanceStateRemoved = true ∧
    (executeFinish (some DlErr.noWorkers) 0).successTriggered = true ∧
    (downloadOutcome (some DlErr.noWorkers) 0 statSize).ret = none ∧
    (∀ n : Nat, 0 < n →
      (downloadOutcome (some DlErr.noWorkers) n statSize).ret
        = some DlErr.noWorkers) := by
  refine ⟨rfl, rfl, rfl, ?_⟩
  intro n hn
  have hn0 : n ≠ 0 := by omega
  simp [downloadOutcome, executeFinish, downloadFinish, hn0]

/-- Witness for C5: a one-byte file with a zero-worker plan is an error. -/
theorem zero_byte_noWorkers_success_witness :
    (downloadOutcome (some DlErr.noWorkers) 1 none).ret
      = some DlErr.noWorkers :=
  (zero_byte_noWorkers_success none).2.2.2 1 (by decide)

/-- C6: a probed mirror contributes a candidate to the list compiled by
`checkLoadBalancers` only if its probe had no transport error, its status code
is in neither the 4xx nor the 5xx class, and its resolved content length
equals the file's expected size (the head of the list is the placeholder
entry, not a probed mirror). -/
theorem checkLoadBalancers_accept_only_valid (fileSize : Nat)
    (mirrors : List MirrorProbe) (r : LoadBalancerResponse)
    (hr : r ∈ checkLoadBalancers fileSize mirrors) :
    r.URL = "der.durl" ∨
      ∃ m ∈ mirrors, m.transportErr = false ∧ m.statusCode / 100 ≠ 4 ∧
        m.statusCode / 100 ≠ 5 ∧ m.contentLength = fileSize ∧
        r.URL = m.requestURL := by
  unfold checkLoadBalancers at hr
  rcases List.mem_cons.mp hr with hhead | htail
  · left
    rw [hhead]
  · right
    rcases List.mem_map.mp htail with ⟨m, hmf, hurl⟩
    rcases List.mem_filter.mp hmf with ⟨hmem, hpred⟩
    simp only [Bool.and_eq_true] at hpred
    obtain ⟨hacc, -⟩ := hpred
    refine ⟨m, hmem, ?_⟩
    unfold mirrorAccepted at hacc
    by_cases ht : m.transportErr
    · simp [ht] at hacc
    · by_cases hs : m.statusCode / 100 = 4 ∨ m.statusCode / 100 = 5
      · simp [ht, hs] at hacc
      · by_cases hl : fileSize ≠ m.contentLength
        · simp [ht, hs, hl] at hacc
        · push_neg at hs hl
          exact ⟨Bool.eq_false_iff.mpr ht, hs.1, hs.2, hl.symm, by rw [← hurl]⟩

/-- Witness for C6: an accepted 200-status mirror of matching length. -/
theorem checkLoadBalancers_accept_only_valid_witness :
    (⟨"https://m1.example.net/f"⟩ : LoadBalancerResponse).URL = "der.durl" ∨
      ∃ m ∈ [(⟨false, 200, 1024, false, "https://m1.example.net/f"⟩ : MirrorProbe)],
        m.transportErr = false ∧ m.statusCode / 100 ≠ 4 ∧
        m.statusCode / 100 ≠ 5 ∧ m.contentLength = 1024 ∧
        (⟨"https://m1.example.net/f"⟩ : LoadBalancerResponse).URL = m.requestURL :=
  checkLoadBalancers_accept_only_valid 1024
    [⟨false, 200, 1024, false, "https://m1.example.net/f"⟩]
    ⟨"https://m1.example.net/f"⟩ (by decide)

/-- C7: the first element of the candidate list compiled by
`checkLoadBalancers` is a response whose URL is the string literal "der.durl"
— a quoted variable name, not the transfer's primary download URL — so for any
transfer whose primary URL differs from that literal the claimed head is
wrong; evaluated here at a concrete accepted mirror and primary URL. -/
theorem checkLoadBalancers_head_is_placeholder :
    ((checkLoadBalancers 1024
        [⟨false, 200, 1024, false, "https://mirror.example.net/f"⟩]).head?.map
      LoadBalancerResponse.URL = some "der.durl") ∧
    "der.durl" ≠ "https://download.cloud.189.cn/file.bin" := by
  constructor
  · rfl
  · decide

/-- C8: in the dispatch of `DownloadTaskUnit.checkFileValid`, a checksum
validation failure sets `NeedRetry` and forces `IsOverwrite` (re-download),
while a banned-file validation failure clears `NeedRetry`. Stated over
`checkFileValidCore`, the source's switch on the `CheckFileValid` result, with
checking enabled. -/
theorem checkFileValid_checksum_retry_banned_fatal (s : CheckValidState) :
    ((checkFileValidCore false (some ValidErr.checksumFailed) s).2.NeedRetry = true ∧
     (checkFileValidCore false (some ValidErr.checksumFailed) s).2.IsOverwrite = true) ∧
    (checkFileValidCore false (some ValidErr.fileBanned) s).2.NeedRetry = false := by
  refine ⟨⟨rfl, rfl⟩, rfl⟩

/-- Witness for C8: the dispatch evaluated at a concrete state. -/
theorem checkFileValid_checksum_retry_banned_fatal_witness :
    (checkFileValidCore false (some ValidErr.checksumFailed)
        ⟨false, "", false, false⟩).2.IsOverwrite = true :=
  (checkFileValid_checksum_retry_banned_fatal ⟨false, "", false, false⟩).1.2

/-- C9: `pandownload.CheckFileValid` returns nil for every file path and
every file entity — the post-download content validation is a stub that can
never fail. -/
theorem checkFileValid_always_nil (filePath : String) (fileInfo : AppFileEntity) :
    CheckFileValid filePath fileInfo = none :=
  rfl

/-- C10: when `DownloadTaskUnit.download` ends with an error outside the
zero-byte-success case, a destination file statted at size 0 is removed before
the error is returned, and a destination file of non-zero size is never
removed. -/
theorem download_error_empty_file_cleanup (e : DlErr) (fileSize : Nat)
    (statSize : Option Nat)
    (hnz : ¬(e = DlErr.noWorkers ∧ fileSize = 0)) :
    (statSize = some 0 →
      (downloadFinish (some e) fileSize statSize).removedEmptyFile = true ∧
      (downloadFinish (some e) fileSize statSize).ret = some e) ∧
    (∀ n : Nat, statSize = some n → 0 < n →
      (downloadFinish (some e) fileSize statSize).removedEmptyFile = false) := by
  constructor
  · intro hstat
    subst hstat
    simp [downloadFinish, hnz]
  · intro n hstat hn
    subst hstat
    simp [downloadFinish, hnz]
    omega

/-- Witness for C10: a failed non-empty download removes nothing. -/
theorem download_error_empty_file_cleanup_witness :
    (downloadFinish (some DlErr.otherDlErr) 5 (some 3)).removedEmptyFile = false :=
  (download_error_empty_file_cleanup DlErr.otherDlErr 5 (some 3)
      (by simp)).2 3 rfl (by decide)

end Ctpango
